import Mathlib

/-!
Verification of the session/connection lifecycle layer of the
unitree_webrtc_connect repository.

Shallow embedding of:
* `go2_webrtc_driver/webrtc_driver.py` — `Go2WebRTCConnection`
  (`connect`, `disconnect`, `init_webrtc`, the patched aioice `Connection`
  class and the `on_connection_state_change` handler);
* `tmp/lidar2/app.py` — the reconnection supervisor `start_webrtc`,
  the monitor loop of `lidar_webrtc_connection`, and the SDP rewrite
  function `_rewrite_sdp_to_legacy`.

Python strings are modelled as `String`/`List Char`; `None`-able strings as
`Option String`; wall-clock times and durations (Python floats holding
seconds) as `ℚ`; exceptions and `sys.exit` as explicit outcome values.
-/

namespace Go2

/-! ## Data model: `Go2WebRTCConnection` (webrtc_driver.py) -/

/-- The `WebRTCConnectionMethod` enum of `go2_webrtc_driver.constants`,
used by `Go2WebRTCConnection.connect` for dispatch. -/
inductive WebRTCConnectionMethod
  | Remote
  | LocalSTA
  | LocalAP
deriving DecidableEq, Repr

/-- The fields of a `Go2WebRTCConnection` object touched by the lifecycle
methods: the connection method, serial number `self.sn`, `self.ip`,
whether `self.pc` currently holds a peer-connection object, and
`self.isConnected`. -/
structure Session where
  connectionMethod : WebRTCConnectionMethod
  sn : Option String
  ip : Option String
  pc : Bool
  isConnected : Bool
deriving DecidableEq, Repr

/-- Python truthiness of an optional string (`None` and `""` are falsy),
as used by `if not self.ip and self.sn:` in `connect`. -/
def pyTruthyStr : Option String → Bool
  | none => false
  | some s => !s.isEmpty

/-- The two `ValueError` raises in the LocalSTA branch of `connect`
(webrtc_driver.py lines 77 and 79). -/
inductive ConnectError
  | serialNotFoundOnNetwork
  | noDevicesFoundOnNetwork
deriving DecidableEq, Repr

/-- The address-resolution phase of `Go2WebRTCConnection.connect`
(webrtc_driver.py lines 63-84): everything `connect` does to `self.ip`
before calling `init_webrtc`.  `discovered` is the serial→address map
returned by `discover_ip_sn()` (an association list standing for the
Python dict).  `.error` models the corresponding `ValueError` raise:
`init_webrtc` is never reached. -/
def connectResolveAddress (s : Session) (discovered : List (String × String)) :
    Except ConnectError Session :=
  match s.connectionMethod with
  | .Remote => .ok s
  | .LocalSTA =>
      if !pyTruthyStr s.ip && pyTruthyStr s.sn then
        if !discovered.isEmpty then
          match discovered.lookup (s.sn.getD "") with
          | some addr => .ok { s with ip := some addr }
          | none => .error .serialNotFoundOnNetwork
        else
          .error .noDevicesFoundOnNetwork
      else
        .ok s
  | .LocalAP => .ok { s with ip := some "192.168.12.1" }

/-- External side effect of `disconnect`: `await self.pc.close()`. -/
inductive TeardownAction
  | closePeerConnection
deriving DecidableEq, Repr

/-- `Go2WebRTCConnection.disconnect` (webrtc_driver.py lines 86-91):
closes the peer connection if one is held, clears `self.pc`, and sets
`self.isConnected = False`.  Returns the new object state and the list
of external close actions performed. -/
def disconnect (s : Session) : Session × List TeardownAction :=
  ({ s with pc := false, isConnected := false },
   if s.pc then [TeardownAction.closePeerConnection] else [])

/-! ## The `connectionstatechange` handler (webrtc_driver.py lines 175-187) -/

/-- The `on_connection_state_change` handler registered in `init_webrtc`:
given the new `pc.connectionState` string and the current value of
`self.isConnected`, returns the value of `self.isConnected` after the
handler runs.  The handler assigns only in the `"connected"` and
`"closed"` branches; the `"connecting"` and `"failed"` branches merely
print, and every other state has no branch at all. -/
def on_connection_state_change (state : String) (isConnected : Bool) : Bool :=
  if state = "connecting" then isConnected
  else if state = "connected" then true
  else if state = "closed" then false
  else if state = "failed" then isConnected
  else isConnected

/-- Formalisation of claim C4 as stated: after any transition to a state
other than `"connected"`, the `isConnected` flag is false. -/
def isConnectedOnlyWhileConnected : Prop :=
  ∀ (state : String) (prev : Bool),
    state ≠ "connected" → on_connection_state_change state prev = false

/-! ## Answer handling in `init_webrtc` (webrtc_driver.py lines 241-254) -/

/-- The parsed JSON answer `{sdp, type}` from the peer. -/
structure PeerAnswer where
  sdp : String
  type : String
deriving DecidableEq, Repr

/-- What `init_webrtc` does after the signaling exchange:
either `sys.exit(code)` or proceed to `setRemoteDescription` with the
answer's sdp and type. -/
inductive AnswerOutcome
  | exitProcess (code : Nat)
  | accepted (remoteSdp remoteType : String)
deriving DecidableEq, Repr

/-- The diagnostic printed before each `sys.exit(1)` in `init_webrtc`:
`couldNotGetSdp` stands for "Could not get SDP from the peer. Check if
the Go2 is switched on", `connectedByAnotherClient` for "Go2 is
connected by another WebRTC client. Close your mobile APP and try
again.". -/
inductive AnswerMessage
  | couldNotGetSdp
  | connectedByAnotherClient
deriving DecidableEq, Repr

/-- The answer-handling step of `init_webrtc` (webrtc_driver.py lines
241-252): `none` models `peer_answer_json is None`; otherwise the parsed
answer is inspected for the `"reject"` sentinel.  Returns the control
outcome together with the diagnostic message printed, if any. -/
def handle_peer_answer : Option PeerAnswer → AnswerOutcome × Option AnswerMessage
  | none => (.exitProcess 1, some .couldNotGetSdp)
  | some ans =>
      if ans.sdp = "reject" then (.exitProcess 1, some .connectedByAnotherClient)
      else (.accepted ans.sdp ans.type, none)

/-- Formalisation of claim C3 as stated: the failure condition that
`connect`'s caller observes on the `"reject"` sentinel is distinct from
the one observed on a generic missing-answer failure.  (The printed log
text is not part of the condition a caller can observe: both paths
terminate the process via `sys.exit`.) -/
def rejectIsDistinctCondition : Prop :=
  ∀ t : String,
    (handle_peer_answer (some ⟨"reject", t⟩)).1 ≠ (handle_peer_answer none).1

/-! ## Shared ICE credentials (webrtc_driver.py lines 10-19, 132-140;
patches.py lines 14-24) -/

/-- The credential fields of an `aioice.Connection` instance. -/
structure IceCredentials where
  local_username : String
  local_password : String
deriving DecidableEq, Repr

/-- Unpatched `aioice.Connection.__init__`: draws fresh random
credentials per instantiation.  `randomString idx len` models the value
returned by the `idx`-th call of `aioice.utils.random_string(len)`;
`draw` is the position of this instantiation in the call sequence. -/
def aioiceBaseInit (randomString : Nat → Nat → String) (draw : Nat) : IceCredentials :=
  { local_username := randomString draw 4
    local_password := randomString (draw + 1) 22 }

/-- The class-level credentials of the patched `Connection` class
(webrtc_driver.py lines 10-12): `random_string(4)` and
`random_string(22)` evaluated once, at module import (draws 0 and 1). -/
def connectionClassCredentials (randomString : Nat → Nat → String) : IceCredentials :=
  { local_username := randomString 0 4
    local_password := randomString 1 22 }

/-- `Connection.__init__` of the patched class (webrtc_driver.py lines
14-17): runs the base initialiser (which draws per-instance random
credentials), then overwrites both fields with the class-level values. -/
def mkConnection (randomString : Nat → Nat → String) (draw : Nat) : IceCredentials :=
  let base := aioiceBaseInit randomString draw
  { base with
    local_username := (connectionClassCredentials randomString).local_username
    local_password := (connectionClassCredentials randomString).local_password }

/-- The guard at the top of `init_webrtc` (webrtc_driver.py lines
132-140): instantiate two fresh connections and compare usernames;
`true` means the usernames differ and the process exits via
`sys.exit(1)`. -/
def init_webrtc_credential_check (randomString : Nat → Nat → String)
    (i j : Nat) : Bool :=
  let a := mkConnection randomString i
  let b := mkConnection randomString j
  a.local_username != b.local_username

/-! ## Reconnection supervisor `start_webrtc` (tmp/lidar2/app.py lines 496-547) -/

/-- The two counters of the supervisor loop. -/
structure SupervisorState where
  retry_count : Nat
  consecutive_fast_failures : Nat
deriving DecidableEq, Repr

/-- Outcome of one `loop.run_until_complete(lidar_webrtc_connection())`:
either it returned normally, or it raised after `duration` seconds
(`connection_duration = time.time() - connection_start`). -/
inductive RunResult
  | completed
  | failed (duration : ℚ)
deriving DecidableEq, Repr

/-- One iteration of the `while` loop of `start_webrtc` (app.py lines
504-543): on normal completion both counters reset and no delay is
slept; on an exception the counters update and the reconnect delay is
computed exactly as in lines 522-534. -/
def supervisorStep (s : SupervisorState) (r : RunResult) :
    SupervisorState × Option Nat :=
  match r with
  | .completed => ({ retry_count := 0, consecutive_fast_failures := 0 }, none)
  | .failed duration =>
      let retry_count := s.retry_count + 1
      let consecutive_fast_failures :=
        if duration < 10 then s.consecutive_fast_failures + 1 else 0
      let reconnect_delay :=
        if consecutive_fast_failures > 3 then
          min 30 (10 * consecutive_fast_failures)
        else
          min (retry_count * 2) 30
      ({ retry_count := retry_count
         consecutive_fast_failures := consecutive_fast_failures },
       some reconnect_delay)

/-- Definition following the spec words of claim C1:
`delay = min(30, consecutive_fast > 3 ? 10*consecutive_fast : attempts*2)`,
where `attempts` and `consecutive_fast` are the updated counters. -/
def specReconnectDelay (attempts consecutive_fast : Nat) : Nat :=
  if consecutive_fast > 3 then min 30 (10 * consecutive_fast)
  else min 30 (attempts * 2)

/-- The supervisor loop run over a sequence of run outcomes, collecting
the reconnect delays computed at each failure. -/
def supervisorRun (s : SupervisorState) : List RunResult → SupervisorState × List Nat
  | [] => (s, [])
  | r :: rs =>
      let step := supervisorStep s r
      let rest := supervisorRun step.1 rs
      (rest.1, step.2.toList ++ rest.2)

/-- Counters at thread start (app.py lines 501-502). -/
def initialSupervisorState : SupervisorState :=
  { retry_count := 0, consecutive_fast_failures := 0 }

/-- The run outcomes forced by the scenario of claim C8: three fast
failures alive 3 s, 2 s and 2 s, then a run that stays alive 20 s.  In
the code a run that outlives its connection ends in a raised
`ConnectionError` (normal return of `lidar_webrtc_connection` happens
only on shutdown, after which the loop exits), so the 20-second run is
a failure of duration 20. -/
def scenarioTrace : List RunResult :=
  [.failed 3, .failed 2, .failed 2, .failed 20]

/-- The delays computed by the supervisor over the C8 scenario. -/
def scenarioDelays : List Nat :=
  (supervisorRun initialSupervisorState scenarioTrace).2

/-- Formalisation of claim C8 as stated: the delay increases across the
first three retries, and at the failure following the 20-second
("successful") run it is back at the base (first-failure) delay. -/
def backoffResetsToBase : Prop :=
  match scenarioDelays with
  | [d1, d2, d3, d4] => d1 < d2 ∧ d2 < d3 ∧ d4 = d1
  | _ => False

/-! ## The monitor loop of `lidar_webrtc_connection` (app.py lines 399-440) -/

/-- The values read by one iteration of the keep-alive monitor loop:
`conn.isConnected`, `conn.pc.connectionState`,
`stats['last_message_time']` and the current `time.time()`. -/
structure MonitorObservation where
  isConnected : Bool
  pc_state : String
  last_message_time : Option ℚ
  current_time : ℚ
deriving Repr

/-- One iteration of the monitor loop (app.py lines 405-425): returns
`true` iff this tick raises `ConnectionError("WebRTC connection lost")`,
tearing the session down for the supervisor to reconnect.  The local
`is_connected` starts from the session flag and is forced to `False`
when the last application message is older than 10 seconds
(`if stats.get('last_message_time'):` is Python-truthy, so a stored
time of `0` is ignored). -/
def monitorTickConnectionLost (o : MonitorObservation) : Bool :=
  let is_connected :=
    match o.last_message_time with
    | some t =>
        if t ≠ 0 then
          if o.current_time - t > 10 then false else o.isConnected
        else o.isConnected
    | none => o.isConnected
  !is_connected ||
    (o.pc_state == "closed" || o.pc_state == "failed" || o.pc_state == "disconnected")

/-! ## The SDP rewrite `_rewrite_sdp_to_legacy` (tmp/lidar2/app.py lines 139-162)

Python strings are modelled as `List Char` at this level.
`str.splitlines()` and the no-argument `str.split()` are embedded
character by character. -/

/-- The line-boundary characters of Python `str.splitlines()`:
`\n`, `\r`, `\v`, `\f`, FS, GS, RS, NEL, LINE SEPARATOR and
PARAGRAPH SEPARATOR (a `\r\n` pair counts as a single boundary and is
handled in `pySplitlinesAux`). -/
def pyLineBreak (c : Char) : Bool :=
  c = '\n' || c = '\r' || c = '\x0b' || c = '\x0c' ||
  c = '\x1c' || c = '\x1d' || c = '\x1e' || c = '\x85' ||
  c = '\u2028' || c = '\u2029'

/-- Characters on which Python's no-argument `str.split()` splits
(those with `str.isspace() == True`): every `splitlines` boundary plus
space, tab, US and NBSP. -/
def pyIsSpace (c : Char) : Bool :=
  pyLineBreak c || c = ' ' || c = '\t' || c = '\x1f' || c = '\xa0'

/-- Python `str.splitlines()` as a one-character scanner.
`acc` holds the current line, reversed; `afterCR` records that the
previous character was a `\r` that already terminated a line, so that
an immediately following `\n` is swallowed (the pair `\r\n` is a single
boundary in Python). -/
def pySplitlinesAux : List Char → List Char → Bool → List (List Char)
  | [], acc, _ => if acc = [] then [] else [acc.reverse]
  | c :: rest, acc, afterCR =>
      if afterCR && (c = '\n') then
        pySplitlinesAux rest acc false
      else if pyLineBreak c then
        acc.reverse :: pySplitlinesAux rest [] (c = '\r')
      else
        pySplitlinesAux rest (c :: acc) false

/-- Python `str.splitlines()` on a character list. -/
def pySplitlines (s : List Char) : List (List Char) :=
  pySplitlinesAux s [] false

/-- Python no-argument `str.split()`: `acc` holds the current word,
reversed; runs of whitespace are collapsed and empty words dropped. -/
def pySplitAux : List Char → List Char → List (List Char)
  | [], acc => if acc = [] then [] else [acc.reverse]
  | c :: rest, acc =>
      if pyIsSpace c then
        if acc = [] then pySplitAux rest []
        else acc.reverse :: pySplitAux rest []
      else pySplitAux rest (c :: acc)

/-- Python no-argument `str.split()` on a character list. -/
def pySplit (l : List Char) : List (List Char) :=
  pySplitAux l []

/-- `"\r\n".join(lines)`. -/
def joinCRLF : List (List Char) → List Char
  | [] => []
  | [l] => l
  | l :: l2 :: ls => l ++ '\r' :: '\n' :: joinCRLF (l2 :: ls)

/-- `"m=application"`. -/
def mApplicationTag : List Char := "m=application".data

/-- `"a=sctp-port"`. -/
def sctpPortTag : List Char := "a=sctp-port".data

/-- `"a=sctpmap"`. -/
def sctpmapTag : List Char := "a=sctpmap".data

/-- The legacy sctpmap line emitted by the rewrite:
`"a=sctpmap:5000 webrtc-datachannel 65535"`. -/
def sctpmapLine : List Char := "a=sctpmap:5000 webrtc-datachannel 65535".data

/-- `port = parts[1] if len(parts) > 1 else "9"` where
`parts = line.split()`. -/
def portOf (line : List Char) : List Char :=
  match pySplit line with
  | _ :: p :: _ => p
  | _ => ['9']

/-- The per-line transformation of the loop body of
`_rewrite_sdp_to_legacy`: what is appended to `lines` for one input
line (the two `saw_*` flags are accumulated separately in
`rewriteLines`, matching the `elif` chain). -/
def rewriteOneLine (line : List Char) : List Char :=
  if mApplicationTag.isPrefixOf line then
    "m=application ".data ++ portOf line ++ " UDP/DTLS/SCTP 5000".data
  else if sctpPortTag.isPrefixOf line then
    sctpmapLine
  else
    line

/-- Whether a line sets `saw_sctpmap` in the loop of
`_rewrite_sdp_to_legacy` (an `a=sctp-port` or `a=sctpmap` line reached
through the `elif` chain, i.e. not an `m=application` line). -/
def setsSawSctpmap (line : List Char) : Bool :=
  !mApplicationTag.isPrefixOf line &&
    (sctpPortTag.isPrefixOf line || sctpmapTag.isPrefixOf line)

/-- The whole loop of `_rewrite_sdp_to_legacy` plus the trailing
`if saw_m_application and not saw_sctpmap:` append. -/
def rewriteLines (ls : List (List Char)) : List (List Char) :=
  let out := ls.map rewriteOneLine
  let saw_m_application := ls.any (fun l => mApplicationTag.isPrefixOf l)
  let saw_sctpmap := ls.any setsSawSctpmap
  if saw_m_application && !saw_sctpmap then out ++ [sctpmapLine] else out

/-- `_rewrite_sdp_to_legacy` on a character list:
`"\r\n".join(lines) + "\r\n"` over the rewritten `sdp.splitlines()`. -/
def rewriteSdpChars (s : List Char) : List Char :=
  joinCRLF (rewriteLines (pySplitlines s)) ++ ['\r', '\n']

/-- `_rewrite_sdp_to_legacy` (tmp/lidar2/app.py lines 139-162) on a
Lean `String` (the function's string branch; a non-`str` argument is
returned unchanged in Python and has no counterpart here). -/
def rewrite_sdp_to_legacy (s : String) : String :=
  String.mk (rewriteSdpChars s.data)

/-- A character list free of `split()` whitespace. -/
def spaceFree (l : List Char) : Bool := l.all fun c => !pyIsSpace c

/-- A character list free of `splitlines()` boundaries. -/
def lbFree (l : List Char) : Bool := l.all fun c => !pyLineBreak c

/-! ## Theorems -/

/-- C1: for every failure handled by the supervisor loop, with
`attempts` the updated consecutive-failure counter and
`consecutive_fast` the updated consecutive-fast-failure counter, the
computed reconnect delay equals `min(30, 10*consecutive_fast)` when
`consecutive_fast > 3` and `min(30, attempts*2)` otherwise. -/
theorem reconnect_delay_matches_spec (s : SupervisorState) (d : ℚ) :
    (supervisorStep s (.failed d)).2 =
      some (specReconnectDelay
        (supervisorStep s (.failed d)).1.retry_count
        (supervisorStep s (.failed d)).1.consecutive_fast_failures) := by
  simp only [supervisorStep, specReconnectDelay]
  split <;> split <;> simp [Nat.min_comm]

/-- C3 counterexample: the claim that a `{"sdp":"reject"}` answer makes
`connect()` fail with a distinct RejectedByPeer condition is false: at
the concrete answer `{"sdp":"reject","type":"answer"}` the outcome is
`sys.exit(1)`, exactly the outcome of the generic missing-answer
failure, so the two conditions coincide. -/
theorem reject_not_a_distinct_condition : ¬rejectIsDistinctCondition :=
  fun h => h "answer" (by decide)

/-- C3 amended: the `"reject"` sentinel is detected by a dedicated
branch, but the failure surface is `sys.exit(1)` — the same
process-exit outcome as the generic missing-answer failure; the two
paths differ only in the diagnostic message printed. -/
theorem reject_exits_like_generic_failure (t : String) :
    handle_peer_answer (some ⟨"reject", t⟩) =
      (.exitProcess 1, some .connectedByAnotherClient) ∧
    handle_peer_answer none = (.exitProcess 1, some .couldNotGetSdp) ∧
    AnswerMessage.connectedByAnotherClient ≠ AnswerMessage.couldNotGetSdp := by
  refine ⟨by simp [handle_peer_answer], rfl, by decide⟩

/-- C4 counterexample: the claim that `isConnected` is true only in the
Connected state and flips false on any transition away is false: on the
transition to `"failed"` with `isConnected` previously true, the
handler leaves the flag true. -/
theorem isConnected_not_only_while_connected : ¬isConnectedOnlyWhileConnected :=
  fun h => absurd (h "failed" true (by decide)) (by decide)

/-- C4 amended: the handler sets `isConnected` true on entering
`"connected"` and false only on `"closed"`; any other transition
(including to `"failed"` or `"disconnected"`) leaves the flag
unchanged, so a stale true value survives those transitions. -/
theorem isConnected_transition_behaviour (state : String) (prev : Bool)
    (h1 : state ≠ "connected") (h2 : state ≠ "closed") :
    on_connection_state_change state prev = prev ∧
    on_connection_state_change "closed" prev = false ∧
    on_connection_state_change "connected" prev = true := by
  refine ⟨?_, by simp [on_connection_state_change], by simp [on_connection_state_change]⟩
  simp only [on_connection_state_change, if_neg h1, if_neg h2]
  split <;> first | rfl | (split <;> rfl)

/-- C4 amended, witness: transition to `"failed"` with the flag
previously true leaves it true; `"closed"` clears it; `"connected"`
sets it. -/
theorem isConnected_transition_behaviour_witness :
    on_connection_state_change "failed" true = true ∧
    on_connection_state_change "closed" true = false ∧
    on_connection_state_change "connected" true = true :=
  isConnected_transition_behaviour "failed" true (by decide) (by decide)

/-- C5: in LocalSTA mode with a serial number but no IP address, if the
multicast probe returns no devices, or returns devices but none with
the given serial, `connect` raises (address resolution fails and
`init_webrtc` is never reached). -/
theorem localSTA_resolution_failure (s : Session) (discovered : List (String × String))
    (hm : s.connectionMethod = .LocalSTA)
    (hip : pyTruthyStr s.ip = false) (hsn : pyTruthyStr s.sn = true) :
    (discovered = [] →
      connectResolveAddress s discovered = .error .noDevicesFoundOnNetwork) ∧
    (discovered ≠ [] → discovered.lookup (s.sn.getD "") = none →
      connectResolveAddress s discovered = .error .serialNotFoundOnNetwork) := by
  constructor
  · rintro rfl
    simp [connectResolveAddress, hm, hip, hsn]
  · intro hne hlook
    simp [connectResolveAddress, hm, hip, hsn, hne, hlook]

/-- C5 witness: a LocalSTA session with serial `B42D2000XXXXXX` and no
IP fails on an empty discovery result and on a discovery result that
lists only another serial. -/
theorem localSTA_resolution_failure_witness :
    connectResolveAddress ⟨.LocalSTA, some "B42D2000XXXXXX", none, false, false⟩ [] =
      .error .noDevicesFoundOnNetwork ∧
    connectResolveAddress ⟨.LocalSTA, some "B42D2000XXXXXX", none, false, false⟩
        [("OTHERSN", "192.168.1.23")] = .error .serialNotFoundOnNetwork :=
  ⟨(localSTA_resolution_failure ⟨.LocalSTA, some "B42D2000XXXXXX", none, false, false⟩
      [] rfl rfl rfl).1 rfl,
   (localSTA_resolution_failure ⟨.LocalSTA, some "B42D2000XXXXXX", none, false, false⟩
      [("OTHERSN", "192.168.1.23")] rfl rfl rfl).2 (by decide) (by decide)⟩

/-- C6: `disconnect` is idempotent and safe from any state: after it
returns, the peer handle is cleared and `isConnected` is false, and a
second consecutive call leaves that state unchanged and performs no
further close action (in particular it succeeds when no peer connection
exists). -/
theorem disconnect_idempotent_and_clears (s : Session) :
    (disconnect s).1.pc = false ∧
    (disconnect s).1.isConnected = false ∧
    disconnect (disconnect s).1 = ((disconnect s).1, []) := by
  refine ⟨rfl, rfl, ?_⟩
  simp [disconnect]

/-- C7: while the session is alive, if the last application message is
more than the 10-second grace period old, the monitor tick raises
`ConnectionError` and tears the session down for reconnection, even
when `conn.isConnected` is still true and the transport reports
`"connected"`. -/
theorem silent_stall_triggers_teardown (t now : ℚ) (isConn : Bool)
    (hne : t ≠ 0) (hstall : now - t > 10) :
    monitorTickConnectionLost ⟨isConn, "connected", some t, now⟩ = true := by
  simp [monitorTickConnectionLost, hne, hstall]

/-- C7 witness: with the last message at t = 1 s and the clock at 12 s
(a 11-second silence), the tick tears down a session whose flag and
transport state are both healthy. -/
theorem silent_stall_triggers_teardown_witness :
    (1 : ℚ) ≠ 0 ∧ (12 : ℚ) - 1 > 10 ∧
    monitorTickConnectionLost ⟨true, "connected", some 1, 12⟩ = true :=
  ⟨by norm_num, by norm_num,
   silent_stall_triggers_teardown 1 12 true (by norm_num) (by norm_num)⟩

/-- C8 counterexample: over the scenario (failures alive 3 s, 2 s, 2 s,
then a run alive 20 s) the delays computed by `start_webrtc` are
2, 4, 6, 8 — the fourth delay is not the base delay 2, because the
attempt counter is not reset by a long-lived run that ends in a
failure signal. -/
theorem backoff_does_not_reset_to_base : ¬backoffResetsToBase := by
  intro hc
  have h : scenarioDelays = [2, 4, 6, 8] := by decide
  unfold backoffResetsToBase at hc
  rw [h] at hc
  exact absurd hc.2.2 (by decide)

/-- C8 amended: the delay increases across the first three retries
(2 s, 4 s, 6 s); the failure ending the 20-second run resets only the
fast-failure counter (duration ≥ 10 s) while the attempt counter keeps
growing, so its delay is `attempts*2 = 8`, not the base delay; both
counters reset only when the run completes normally. -/
theorem backoff_scenario_behaviour :
    scenarioDelays = [2, 4, 6, 8] ∧
    (supervisorRun initialSupervisorState scenarioTrace).1 =
      { retry_count := 4, consecutive_fast_failures := 0 } ∧
    (∀ s : SupervisorState, supervisorStep s .completed =
      ({ retry_count := 0, consecutive_fast_failures := 0 }, none)) :=
  ⟨by decide, by decide, fun _ => rfl⟩

/-- C9: any two patched `Connection` instances, whatever per-instance
random draws their base initialiser makes, carry the identical
class-level `local_username` and `local_password` fixed at import time,
and the two-fresh-connections guard in `init_webrtc` therefore never
terminates the process. -/
theorem shared_ice_credentials (randomString : Nat → Nat → String) (i j : Nat) :
    mkConnection randomString i = mkConnection randomString j ∧
    init_webrtc_credential_check randomString i j = false := by
  refine ⟨rfl, ?_⟩
  simp [init_webrtc_credential_check, mkConnection, aioiceBaseInit,
    connectionClassCredentials]

/-- C10: for every `connect()` call in LocalAP mode, `self.ip` is
unconditionally set to `"192.168.12.1"` before signaling, overriding
any IP supplied to the constructor. -/
theorem localAP_forces_fixed_ip (s : Session) (discovered : List (String × String))
    (h : s.connectionMethod = .LocalAP) :
    connectResolveAddress s discovered = .ok { s with ip := some "192.168.12.1" } := by
  simp [connectResolveAddress, h]

/-- C10 witness: a LocalAP session constructed with IP `10.1.2.3` ends
up targeting `192.168.12.1`. -/
theorem localAP_forces_fixed_ip_witness :
    connectResolveAddress ⟨.LocalAP, none, some "10.1.2.3", false, false⟩ [] =
      .ok ⟨.LocalAP, none, some "192.168.12.1", false, false⟩ :=
  localAP_forces_fixed_ip _ _ rfl

/-! ### Helper lemmas for the SDP rewrite (claim C2) -/

/-- A character that is not `split()` whitespace is not a `splitlines()`
boundary either (Python line boundaries are whitespace). -/
theorem pyLineBreak_eq_false_of_pyIsSpace (c : Char) (h : pyIsSpace c = false) :
    pyLineBreak c = false := by
  simp only [pyIsSpace, Bool.or_eq_false_iff] at h
  exact h.1.1.1.1

/-- Space-free character lists are linebreak-free. -/
theorem lbFree_of_spaceFree (l : List Char) (h : spaceFree l = true) :
    lbFree l = true := by
  simp only [spaceFree, lbFree, List.all_eq_true] at h ⊢
  intro c hc
  have := h c hc
  simp only [Bool.not_eq_true'] at this ⊢
  exact pyLineBreak_eq_false_of_pyIsSpace c this

/-- Every word produced by `pySplitAux` is nonempty and space-free. -/
theorem pySplitAux_mem (l : List Char) :
    ∀ acc : List Char, spaceFree acc = true →
      ∀ w ∈ pySplitAux l acc, w ≠ [] ∧ spaceFree w = true := by
  induction l with
  | nil =>
      intro acc hacc w hw
      by_cases h : acc = []
      · simp [pySplitAux, h] at hw
      · simp [pySplitAux, h] at hw
        subst hw
        refine ⟨by simpa using h, ?_⟩
        simpa [spaceFree] using hacc
  | cons c rest ih =>
      intro acc hacc w hw
      by_cases hc : pyIsSpace c = true
      · by_cases ha : acc = []
        · simp [pySplitAux, hc, ha] at hw
          exact ih [] rfl w hw
        · simp [pySplitAux, hc, ha] at hw
          rcases hw with hw | hw
          · subst hw
            refine ⟨by simpa using ha, ?_⟩
            simpa [spaceFree] using hacc
          · exact ih [] rfl w hw
      · have hc' : pyIsSpace c = false := by simpa using hc
        simp [pySplitAux, hc'] at hw
        refine ih (c :: acc) ?_ w hw
        simp only [spaceFree, List.all_cons] at hacc ⊢
        simp [hc', hacc]

/-- Consuming a space-free word accumulates it. -/
theorem pySplitAux_append (w : List Char) (hw : spaceFree w = true) :
    ∀ rest acc : List Char,
      pySplitAux (w ++ rest) acc = pySplitAux rest (w.reverse ++ acc) := by
  induction w with
  | nil => intro rest acc; simp
  | cons c w ih =>
      intro rest acc
      simp only [spaceFree, List.all_cons, Bool.and_eq_true, Bool.not_eq_true'] at hw
      have hw' : spaceFree w = true := hw.2
      rw [show (c :: w).reverse ++ acc = w.reverse ++ (c :: acc) by simp]
      rw [← ih hw' rest (c :: acc)]
      simp [pySplitAux, hw.1]

/-- A whitespace character with a nonempty accumulator emits the word. -/
theorem pySplitAux_space (c : Char) (hc : pyIsSpace c = true)
    (rest acc : List Char) (hacc : acc ≠ []) :
    pySplitAux (c :: rest) acc = acc.reverse :: pySplitAux rest [] := by
  simp [pySplitAux, hc, hacc]

/-- `split()` of a rebuilt `m=application` line recovers its parts. -/
theorem pySplit_mApplication (port : List Char) (hne : port ≠ [])
    (hsf : spaceFree port = true) :
    pySplit ("m=application ".data ++ port ++ " UDP/DTLS/SCTP 5000".data) =
      [mApplicationTag, port, "UDP/DTLS/SCTP".data, "5000".data] := by
  have h0 : "m=application ".data ++ port ++ " UDP/DTLS/SCTP 5000".data =
      mApplicationTag ++ (' ' :: (port ++ (' ' :: "UDP/DTLS/SCTP 5000".data))) := by
    have e1 : "m=application ".data = mApplicationTag ++ [' '] := by decide
    have e2 : " UDP/DTLS/SCTP 5000".data = ' ' :: "UDP/DTLS/SCTP 5000".data := by decide
    rw [e1, e2]
    simp
  rw [h0]
  unfold pySplit
  rw [pySplitAux_append mApplicationTag (by decide) _ []]
  rw [List.append_nil]
  rw [pySplitAux_space ' ' (by decide) _ _ (by decide)]
  rw [pySplitAux_append port hsf _ []]
  rw [List.append_nil]
  rw [pySplitAux_space ' ' (by decide) _ _ (by simpa using hne)]
  rw [List.reverse_reverse]
  have e3 : pySplitAux "UDP/DTLS/SCTP 5000".data [] =
      [("UDP/DTLS/SCTP".data : List Char), "5000".data] := by decide
  rw [e3]
  simp [mApplicationTag]

/-- The `port` taken from any line is nonempty and space-free. -/
theorem portOf_spec (l : List Char) : portOf l ≠ [] ∧ spaceFree (portOf l) = true := by
  unfold portOf
  cases h : pySplit l with
  | nil => exact show (['9'] : List Char) ≠ [] ∧ spaceFree ['9'] = true from ⟨by decide, by decide⟩
  | cons a t =>
      cases t with
      | nil =>
          exact show (['9'] : List Char) ≠ [] ∧ spaceFree ['9'] = true from ⟨by decide, by decide⟩
      | cons p t2 =>
          have hp : p ∈ pySplit l := by rw [h]; simp
          exact pySplitAux_mem l [] rfl p hp

/-- Transport from the prefix relation to the Bool `isPrefixOf` test. -/
theorem isPrefixOf_true_of (l1 l2 : List Char) (h : l1 <+: l2) :
    l1.isPrefixOf l2 = true :=
  List.isPrefixOf_iff_prefix.mpr h

/-- Transport from a refuted prefix relation to `isPrefixOf = false`. -/
theorem isPrefixOf_false_of (l1 l2 : List Char) (h : ¬l1 <+: l2) :
    l1.isPrefixOf l2 = false :=
  Bool.eq_false_iff.mpr fun hb => h (List.isPrefixOf_iff_prefix.mp hb)

/-- The rebuilt `m=application` line decomposes after its tag. -/
theorem mApplication_line_decomp (port : List Char) :
    "m=application ".data ++ port ++ " UDP/DTLS/SCTP 5000".data =
      mApplicationTag ++ (' ' :: (port ++ " UDP/DTLS/SCTP 5000".data)) := by
  have e1 : "m=application ".data = mApplicationTag ++ [' '] := by decide
  rw [e1]
  simp

/-- The rebuilt `m=application` line still starts with the tag. -/
theorem mApplication_prefix_rebuilt (port : List Char) :
    mApplicationTag <+:
      "m=application ".data ++ port ++ " UDP/DTLS/SCTP 5000".data := by
  rw [mApplication_line_decomp]
  exact List.prefix_append _ _

/-- On a line starting with `m=application`, the rewrite rebuilds it. -/
theorem rewriteOneLine_mApp (l : List Char) (h : mApplicationTag <+: l) :
    rewriteOneLine l =
      "m=application ".data ++ portOf l ++ " UDP/DTLS/SCTP 5000".data := by
  simp [rewriteOneLine, h]

/-- On a line starting with `a=sctp-port`, the rewrite emits the legacy
sctpmap line. -/
theorem rewriteOneLine_sctpPort (l : List Char) (h1 : ¬mApplicationTag <+: l)
    (h2 : sctpPortTag <+: l) : rewriteOneLine l = sctpmapLine := by
  simp [rewriteOneLine, h1, h2]

/-- On any other line, the rewrite is the identity. -/
theorem rewriteOneLine_other (l : List Char) (h1 : ¬mApplicationTag <+: l)
    (h2 : ¬sctpPortTag <+: l) : rewriteOneLine l = l := by
  simp [rewriteOneLine, h1, h2]

/-- The per-line rewrite is idempotent. -/
theorem rewriteOneLine_idem (l : List Char) :
    rewriteOneLine (rewriteOneLine l) = rewriteOneLine l := by
  by_cases h1 : mApplicationTag <+: l
  · obtain ⟨hne, hsf⟩ := portOf_spec l
    rw [rewriteOneLine_mApp l h1]
    set p := portOf l with hp
    have hsplit := pySplit_mApplication p hne hsf
    rw [rewriteOneLine_mApp _ (mApplication_prefix_rebuilt p)]
    have hport2 : portOf ("m=application ".data ++ p ++ " UDP/DTLS/SCTP 5000".data) = p := by
      unfold portOf
      rw [hsplit]
    rw [hport2]
  · by_cases h2 : sctpPortTag <+: l
    · rw [rewriteOneLine_sctpPort l h1 h2]
      decide
    · rw [rewriteOneLine_other l h1 h2, rewriteOneLine_other l h1 h2]

/-- The per-line rewrite preserves the `m=application` test. -/
theorem mApplication_isPrefix_rewriteOneLine (l : List Char) :
    mApplicationTag.isPrefixOf (rewriteOneLine l) = mApplicationTag.isPrefixOf l := by
  by_cases h1 : mApplicationTag <+: l
  · rw [rewriteOneLine_mApp l h1,
      isPrefixOf_true_of _ _ (mApplication_prefix_rebuilt (portOf l)),
      isPrefixOf_true_of _ _ h1]
  · by_cases h2 : sctpPortTag <+: l
    · rw [rewriteOneLine_sctpPort l h1 h2, isPrefixOf_false_of _ _ h1]
      decide
    · rw [rewriteOneLine_other l h1 h2]

/-- The per-line rewrite preserves the `saw_sctpmap` test. -/
theorem setsSawSctpmap_rewriteOneLine (l : List Char) :
    setsSawSctpmap (rewriteOneLine l) = setsSawSctpmap l := by
  by_cases h1 : mApplicationTag <+: l
  · unfold setsSawSctpmap
    rw [mApplication_isPrefix_rewriteOneLine, isPrefixOf_true_of _ _ h1]
    simp
  · by_cases h2 : sctpPortTag <+: l
    · rw [rewriteOneLine_sctpPort l h1 h2]
      have e1 : setsSawSctpmap sctpmapLine = true := by decide
      have e2 : setsSawSctpmap l = true := by
        unfold setsSawSctpmap
        rw [isPrefixOf_false_of _ _ h1, isPrefixOf_true_of _ _ h2]
        simp
      rw [e1, e2]
    · rw [rewriteOneLine_other l h1 h2]

/-- The per-line rewrite preserves linebreak-freeness. -/
theorem lbFree_rewriteOneLine (l : List Char) (h : lbFree l = true) :
    lbFree (rewriteOneLine l) = true := by
  by_cases h1 : mApplicationTag <+: l
  · rw [rewriteOneLine_mApp l h1]
    have hlb : lbFree (portOf l) = true := lbFree_of_spaceFree _ (portOf_spec l).2
    simp only [lbFree, List.all_append, Bool.and_eq_true] at hlb ⊢
    exact ⟨⟨by decide, hlb⟩, by decide⟩
  · by_cases h2 : sctpPortTag <+: l
    · rw [rewriteOneLine_sctpPort l h1 h2]
      decide
    · rw [rewriteOneLine_other l h1 h2]
      exact h

/-- Mapping the per-line rewrite twice equals mapping it once. -/
theorem map_rewriteOneLine_idem (ls : List (List Char)) :
    (ls.map rewriteOneLine).map rewriteOneLine = ls.map rewriteOneLine := by
  induction ls with
  | nil => rfl
  | cons a t ih => simp [rewriteOneLine_idem, ih]

/-- Mapping the per-line rewrite preserves the `saw_m_application` flag. -/
theorem any_mApp_map (ls : List (List Char)) :
    (ls.map rewriteOneLine).any (fun l => mApplicationTag.isPrefixOf l) =
      ls.any (fun l => mApplicationTag.isPrefixOf l) := by
  simp [List.any_map, Function.comp_def, mApplication_isPrefix_rewriteOneLine]

/-- Mapping the per-line rewrite preserves the `saw_sctpmap` flag. -/
theorem any_sctpmap_map (ls : List (List Char)) :
    (ls.map rewriteOneLine).any setsSawSctpmap = ls.any setsSawSctpmap := by
  simp [List.any_map, Function.comp_def, setsSawSctpmap_rewriteOneLine]

/-- Defining equation of `rewriteLines` with the lets resolved. -/
theorem rewriteLines_def (ls : List (List Char)) :
    rewriteLines ls =
      if ls.any (fun l => mApplicationTag.isPrefixOf l) && !ls.any setsSawSctpmap
      then ls.map rewriteOneLine ++ [sctpmapLine]
      else ls.map rewriteOneLine := rfl

/-- The whole-list rewrite is idempotent. -/
theorem rewriteLines_idem (ls : List (List Char)) :
    rewriteLines (rewriteLines ls) = rewriteLines ls := by
  have hfix : rewriteOneLine sctpmapLine = sctpmapLine := by decide
  have hselfS : setsSawSctpmap sctpmapLine = true := by decide
  cases hA : ls.any (fun l => mApplicationTag.isPrefixOf l) with
  | false =>
      have hinner : rewriteLines ls = ls.map rewriteOneLine := by
        rw [rewriteLines_def, hA, Bool.false_and, if_neg Bool.false_ne_true]
      rw [hinner, rewriteLines_def, any_mApp_map, hA, Bool.false_and,
        if_neg Bool.false_ne_true, map_rewriteOneLine_idem]
  | true =>
      cases hS : ls.any setsSawSctpmap with
      | true =>
          have hinner : rewriteLines ls = ls.map rewriteOneLine := by
            rw [rewriteLines_def, hA, hS]
            simp only [Bool.not_true, Bool.and_false]
            rw [if_neg Bool.false_ne_true]
          rw [hinner, rewriteLines_def, any_mApp_map, any_sctpmap_map, hA, hS]
          simp only [Bool.not_true, Bool.and_false]
          rw [if_neg Bool.false_ne_true, map_rewriteOneLine_idem]
      | false =>
          have hinner : rewriteLines ls = ls.map rewriteOneLine ++ [sctpmapLine] := by
            rw [rewriteLines_def, hA, hS]
            simp only [Bool.not_false, Bool.and_true]
            simp
          have hS2 : (ls.map rewriteOneLine ++ [sctpmapLine]).any setsSawSctpmap = true := by
            rw [List.any_append, any_sctpmap_map, hS]
            simp [hselfS]
          rw [hinner, rewriteLines_def, hS2]
          simp only [Bool.not_true, Bool.and_false]
          rw [if_neg Bool.false_ne_true, List.map_append, map_rewriteOneLine_idem]
          simp [hfix]

/-! ### Helper lemmas for `splitlines` (claim C2) -/

/-- A non-boundary character is accumulated into the current line. -/
theorem pySplitlinesAux_keep (c : Char) (h : pyLineBreak c = false)
    (rest acc : List Char) (afterCR : Bool) :
    pySplitlinesAux (c :: rest) acc afterCR = pySplitlinesAux rest (c :: acc) false := by
  have hn : ¬c = '\n' := by
    intro e
    subst e
    simp [pyLineBreak] at h
  simp [pySplitlinesAux, h, hn]

/-- A `\r\n` pair terminates the current line exactly once. -/
theorem pySplitlinesAux_crlf (rest acc : List Char) :
    pySplitlinesAux ('\r' :: '\n' :: rest) acc false =
      acc.reverse :: pySplitlinesAux rest [] false := by
  simp [pySplitlinesAux, pyLineBreak]

/-- Scanning a linebreak-free chunk accumulates it into the line. -/
theorem pySplitlinesAux_append (w : List Char) (hw : lbFree w = true) :
    ∀ rest acc : List Char,
      pySplitlinesAux (w ++ rest) acc false = pySplitlinesAux rest (w.reverse ++ acc) false := by
  induction w with
  | nil => intro rest acc; simp
  | cons c w ih =>
      intro rest acc
      simp only [lbFree, List.all_cons, Bool.and_eq_true, Bool.not_eq_true'] at hw
      rw [List.cons_append, pySplitlinesAux_keep c hw.1]
      rw [ih hw.2 rest (c :: acc)]
      simp

/-- Every line produced by `pySplitlinesAux` is linebreak-free. -/
theorem pySplitlinesAux_lbFree (s : List Char) :
    ∀ (acc : List Char) (afterCR : Bool), lbFree acc = true →
      ∀ l ∈ pySplitlinesAux s acc afterCR, lbFree l = true := by
  induction s with
  | nil =>
      intro acc afterCR hacc l hl
      by_cases h : acc = []
      · simp [pySplitlinesAux, h] at hl
      · simp [pySplitlinesAux, h] at hl
        subst hl
        simpa [lbFree] using hacc
  | cons c rest ih =>
      intro acc afterCR hacc l hl
      rw [pySplitlinesAux] at hl
      split at hl
      · exact ih acc false hacc l hl
      · split at hl
        · rcases List.mem_cons.mp hl with hl | hl
          · subst hl
            simpa [lbFree] using hacc
          · exact ih [] _ rfl l hl
        · refine ih (c :: acc) false ?_ l hl
          rename_i hcond hlb
          simp only [lbFree, List.all_cons, Bool.and_eq_true, Bool.not_eq_true']
          exact ⟨by simpa using hlb, by simpa [lbFree] using hacc⟩

/-- Splitting `"\r\n".join(lines) + "\r\n"` recovers `lines`, provided
the lines are linebreak-free and the list is nonempty. -/
theorem pySplitlines_join (ls : List (List Char)) (hne : ls ≠ [])
    (hlb : ∀ l ∈ ls, lbFree l = true) :
    pySplitlines (joinCRLF ls ++ ['\r', '\n']) = ls := by
  induction ls with
  | nil => exact absurd rfl hne
  | cons l t ih =>
      cases t with
      | nil =>
          unfold pySplitlines
          rw [joinCRLF]
          rw [pySplitlinesAux_append l (hlb l (by simp)) _ []]
          rw [List.append_nil, pySplitlinesAux_crlf]
          simp [pySplitlinesAux]
      | cons l2 t2 =>
          unfold pySplitlines
          rw [joinCRLF]
          rw [List.append_assoc, List.cons_append, List.cons_append,
            pySplitlinesAux_append l (hlb l (by simp)) _ []]
          rw [List.append_nil, pySplitlinesAux_crlf, List.reverse_reverse]
          have := ih (by simp) (fun x hx => hlb x (by simp [hx]))
          unfold pySplitlines at this
          rw [this]

/-- Every line of the rewritten output is linebreak-free, given
linebreak-free input lines. -/
theorem rewriteLines_lbFree (ls : List (List Char))
    (h : ∀ l ∈ ls, lbFree l = true) :
    ∀ l ∈ rewriteLines ls, lbFree l = true := by
  intro l hl
  rw [rewriteLines_def] at hl
  have hmap : ∀ x ∈ ls.map rewriteOneLine, lbFree x = true := by
    intro x hx
    rcases List.mem_map.mp hx with ⟨y, hy, rfl⟩
    exact lbFree_rewriteOneLine y (h y hy)
  split at hl
  · rcases List.mem_append.mp hl with hl | hl
    · exact hmap l hl
    · rcases List.mem_singleton.mp hl with rfl
      decide
  · exact hmap l hl

/-- Idempotence of the full rewrite at the character-list level. -/
theorem rewriteSdpChars_idem (s : List Char) :
    rewriteSdpChars (rewriteSdpChars s) = rewriteSdpChars s := by
  unfold rewriteSdpChars
  by_cases hL : rewriteLines (pySplitlines s) = []
  · rw [hL]
    decide
  · have hlb : ∀ l ∈ rewriteLines (pySplitlines s), lbFree l = true :=
      rewriteLines_lbFree _ (pySplitlinesAux_lbFree s [] false rfl)
    rw [pySplitlines_join _ hL hlb, rewriteLines_idem]

/-- C2: the SDP rewrite `_rewrite_sdp_to_legacy` is idempotent:
`rewrite(rewrite(x)) == rewrite(x)` — proved for every input string,
hence in particular for every valid SDP string. -/
theorem rewrite_sdp_idempotent (s : String) :
    rewrite_sdp_to_legacy (rewrite_sdp_to_legacy s) = rewrite_sdp_to_legacy s :=
  congrArg String.mk (rewriteSdpChars_idem s.data)

end Go2
